import Mathlib

/-!
Verification of the helix refinement-cycle orchestrator.

This file gives a shallow embedding, in Lean 4, of the Python core under
`src/reb00t/helix/`:

* `ProgressManager` (src/reb00t/helix/progress_manager.py) — the JSON-backed
  progress store;
* `PlannerAgent` (src/reb00t/helix/agents/planner_agent.py) — `create_plan`
  and `_validate_and_enhance_plan`, with the LLM transport abstracted as an
  `Except`-valued outcome of `AbstractAgent.generate`;
* `Planner` (src/reb00t/helix/agents/planner.py) — `plan_next_refinement`
  including the fallback plan and `_requires_user_feedback`;
* `CLIInteractionHook` (src/reb00t/helix/agents/interaction_hook.py) — the
  blocking-terminal feedback gate, with terminal input modelled as a list of
  input events (a typed line, or an interrupt/EOF);
* `CoordinatorAgent.run_refinement_cycle`
  (src/reb00t/helix/agents/coordinator_agent.py) — the seven-stage state
  machine, with its collaborators (planner generation outcome, interaction
  hook, verification capability, progress-store I/O) supplied as an explicit
  environment, and Python exception propagation modelled by an
  except-over-state monad in which `throw` preserves the state mutated so far
  (Python mutates the `results` dict in place, so the `except` handler at the
  top of `run_refinement_cycle` observes all mutations made before a raise).

Machine strings and dictionaries are modelled with `String`, `List String`
and `Option`-valued record fields (an `Option` field is `none` exactly when
the corresponding key is absent from the Python dict).
-/

namespace Helix

/-! ## Python string primitives

`pyIn needle hay` is Python's substring test `needle in hay`;
`pyLower` is `str.lower` (per-character, as in the ASCII cases the code
uses); `pyStrip` is `str.strip`.
-/

/-- `leadsWith n h` is true iff the char list `n` is an initial segment of `h`. -/
def leadsWith : List Char → List Char → Bool
  | [], _ => true
  | _ :: _, [] => false
  | c :: cs, d :: ds => c == d && leadsWith cs ds

/-- `hasSub n h` is true iff `n` occurs contiguously inside `h`
(Python `n in h` on strings, at the character-list level). -/
def hasSub (needle : List Char) : List Char → Bool
  | [] => needle.isEmpty
  | c :: t => leadsWith needle (c :: t) || hasSub needle t

/-- Python `needle in hay` for strings. -/
def pyIn (needle hay : String) : Bool :=
  hasSub needle.toList hay.toList

/-- Python `s.lower()` (per-character lowercasing). -/
def pyLower (s : String) : String :=
  String.mk (s.toList.map Char.toLower)

/-- Drop leading whitespace characters. -/
def dropLeadingWs : List Char → List Char
  | [] => []
  | c :: t => if c.isWhitespace then dropLeadingWs t else c :: t

/-- Python `s.strip()` (whitespace trimming at both ends). -/
def pyStrip (s : String) : String :=
  String.mk (((dropLeadingWs s.toList).reverse |> dropLeadingWs).reverse)

/-- Python `repr` of a list of strings, used when an f-string interpolates a
list (only ever flows into progress notes, never into control flow). -/
def pyListRepr (xs : List String) : String :=
  "[" ++ String.intercalate ", " (xs.map (fun x => "\x27" ++ x ++ "\x27")) ++ "]"

/-! ## Progress store (src/reb00t/helix/progress_manager.py)

The backing `progress.json` file is modelled by `StoredProgress`: the JSON
object actually on disk, each schema key present or absent.  `json.dump` of a
full record and `json.load` are inverse serializations on this shape, so
`ProgressManager._write_progress` is modelled as producing the stored object
and `load_progress` as the deserialization plus the back-fill of lines 24–31.
-/

/-- A fully-formed progress record: the dict `load_progress` returns. -/
structure Progress where
  task : String
  step : String
  details : List String
  notes : List String
deriving DecidableEq

/-- The JSON object in the backing store; a `none` field is an absent key. -/
structure StoredProgress where
  task : Option String
  step : Option String
  details : Option (List String)
  notes : Option (List String)
deriving DecidableEq

/-- Default record returned when no backing store exists
(progress_manager.py lines 11–17). -/
def defaultProgress : Progress :=
  { task := "", step := "A: Preparation, step 1", details := [], notes := [] }

/-- `ProgressManager.load_progress` applied to a parsed JSON object:
back-fills every structurally missing field with its default
(progress_manager.py lines 23–33). -/
def load_progress_from (d : StoredProgress) : Progress :=
  { task := d.task.getD ""
    step := d.step.getD "A: Preparation, step 1"
    details := d.details.getD []
    notes := d.notes.getD [] }

/-- `ProgressManager._write_progress`: serializes the full record, every key
present (progress_manager.py lines 54–60). -/
def write_progress (p : Progress) : StoredProgress :=
  { task := some p.task
    step := some p.step
    details := some p.details
    notes := some p.notes }

/-! ## Plan dictionaries (src/reb00t/helix/agents/planner_agent.py)

`PlannerAgent` manipulates plans as Python dicts whose values are strings or
lists of strings.  `PlanVal` is such a value; a `PlanDict` field is `none`
exactly when the key is absent.  The generative call
(`AbstractAgent.generate(prompt, parse_json=True)`, whose LLM transport lives
outside src/) is abstracted as an `Except String PlanDict`: `.error` covers a
transport exception as well as a malformed structured response (both raise
inside `create_plan`'s `try`), `.ok` a parsed JSON object of the requested
shape.
-/

/-- A JSON value stored under a plan key: a string or a list of strings. -/
inductive PlanVal where
  | s (v : String)
  | arr (v : List String)
deriving DecidableEq

/-- Python falsiness for a plan value (`if not plan["goals"]`). -/
def PlanVal.falsy : PlanVal → Bool
  | .s v => v == ""
  | .arr v => v.isEmpty

/-- A plan as a Python dict over the schema keys; `none` = key absent. -/
structure PlanDict where
  summary : Option PlanVal
  description : Option PlanVal
  priority : Option PlanVal
  estimated_effort : Option PlanVal
  goals : Option PlanVal
  files_to_modify : Option PlanVal
  tests_to_add : Option PlanVal
  dependencies : Option PlanVal
  risks : Option PlanVal
  success_criteria : Option PlanVal
  plan_id : Option PlanVal
  created_at : Option PlanVal
deriving DecidableEq

/-- The dict with no keys (e.g. the parse of an LLM response `{}`). -/
def PlanDict.empty : PlanDict :=
  { summary := none, description := none, priority := none
    estimated_effort := none, goals := none, files_to_modify := none
    tests_to_add := none, dependencies := none, risks := none
    success_criteria := none, plan_id := none, created_at := none }

/-- `PlannerAgent._validate_and_enhance_plan` (planner_agent.py lines
255–283): back-fill the five required keys with `[]`, stamp `created_at` and
`plan_id` (`"plan_" + str(len(history) + 1)`), force `goals` non-falsy,
default `priority`, default `success_criteria` when absent or falsy. -/
def validate_and_enhance_plan (plan : PlanDict) (histLen : Nat) (now : String) :
    PlanDict :=
  let plan :=
    { plan with
      summary := some (plan.summary.getD (.arr []))
      description := some (plan.description.getD (.arr []))
      goals := some (plan.goals.getD (.arr []))
      files_to_modify := some (plan.files_to_modify.getD (.arr []))
      tests_to_add := some (plan.tests_to_add.getD (.arr [])) }
  let plan :=
    { plan with
      created_at := some (.s now)
      plan_id := some (.s ("plan_" ++ toString (histLen + 1))) }
  let plan :=
    { plan with
      goals :=
        if (plan.goals.getD (.arr [])).falsy then
          some (.arr ["Continue development according to spec"])
        else plan.goals }
  let plan :=
    { plan with
      priority := some (plan.priority.getD (.s "medium")) }
  let plan :=
    { plan with
      success_criteria :=
        match plan.success_criteria with
        | none => some (.arr ["All goals completed successfully",
                              "Tests passing", "Progress updated"])
        | some v =>
          if v.falsy then
            some (.arr ["All goals completed successfully",
                        "Tests passing", "Progress updated"])
          else some v }
  plan

/-- Result dict of `PlannerAgent.create_plan` (the `analysis` entry, a pure
total computation no claim mentions, is not carried). -/
structure CreatePlanResult where
  success : Bool
  plan : Option PlanDict
  error : Option String
deriving DecidableEq

/-- `PlannerAgent.create_plan` (planner_agent.py lines 23–47): on a
successful generation, validate/enhance, append to the history, and return
`success=True`; any exception out of the generative call (transport failure
or malformed structured response) is caught and yields `success=False`,
`plan=None`.  Returns the result together with the updated plan history. -/
def create_plan (history : List PlanDict) (gen : Except String PlanDict)
    (now : String) : CreatePlanResult × List PlanDict :=
  match gen with
  | .error e =>
    ({ success := false, plan := none, error := some e }, history)
  | .ok plan =>
    let validated := validate_and_enhance_plan plan history.length now
    ({ success := true, plan := some validated, error := none },
     history ++ [validated])

/-- The fallback plan built inline in `Planner.plan_next_refinement`
(planner.py lines 21–28) when `create_plan` reports failure. -/
def fallbackPlanDict : PlanDict :=
  { summary := some (.s "Continue development according to current progress")
    description := some (.s "Proceed with next development steps based on current state")
    priority := none
    estimated_effort := none
    goals := some (.arr ["Continue implementation", "Update tests", "Maintain progress"])
    files_to_modify := some (.arr ["reb00t/helix/agentic_system.py"])
    tests_to_add := some (.arr ["basic_functionality_test"])
    dependencies := none
    risks := none
    success_criteria := none
    plan_id := none
    created_at := none }

/-- The plan `Planner.plan_next_refinement` proceeds with (planner.py lines
18–30): the validated plan when `create_plan` succeeded, the inline fallback
plan otherwise. -/
def plan_next_refinement_plan (history : List PlanDict)
    (gen : Except String PlanDict) (now : String) : PlanDict :=
  let r := (create_plan history gen now).1
  if r.success then r.plan.getD fallbackPlanDict else fallbackPlanDict

/-- Successive `create_plan` calls: fold the history through a list of
(generation outcome, timestamp) pairs. -/
def create_plan_fold (history : List PlanDict) :
    List (Except String PlanDict × String) → List PlanDict
  | [] => history
  | (gen, now) :: rest =>
    create_plan_fold (create_plan history gen now).2 rest

/-! ## Interaction hooks (src/reb00t/helix/agents/interaction_hook.py)

Terminal interaction for `CLIInteractionHook.request_user_feedback` is
modelled as a list of input events: each `input()` call consumes the next
event, which is either a typed line or an interrupt
(`KeyboardInterrupt`/`EOFError`; an exhausted list is an EOF).  The rendering
of the context (`print` calls, lines 37–58) has no observable effect on the
returned feedback and is not modelled.
-/

/-- One terminal read: a typed line, or an interrupt during the wait. -/
inductive TermInput where
  | line (s : String)
  | interrupt
deriving DecidableEq

/-- The `{text, continue}` dict every hook returns. -/
structure Feedback where
  text : String
  continue_flag : Bool
deriving DecidableEq

/-- Consume one `input()` call: `none` models a raised
`KeyboardInterrupt`/`EOFError`. -/
def readTermInput : List TermInput → Option String × List TermInput
  | [] => (none, [])
  | .line s :: rest => (some s, rest)
  | .interrupt :: rest => (none, rest)

/-- `CLIInteractionHook.request_user_feedback` (interaction_hook.py lines
61–85): strip the free-text input; `quit`/`exit`/`stop` (lowercased) return
an immediate stop with a synthetic text; otherwise ask the continuation
prompt, defaulting to yes on empty input; an interrupt at either read is
caught and mapped to a synthetic interrupted result. -/
def request_user_feedback (inputs : List TermInput) : Feedback :=
  match readTermInput inputs with
  | (none, _) => { text := "User interrupted", continue_flag := false }
  | (some raw, rest) =>
    let feedback_text := pyStrip raw
    if pyLower feedback_text ∈ (["quit", "exit", "stop"] : List String) then
      { text := "User requested to stop", continue_flag := false }
    else
      match readTermInput rest with
      | (none, _) => { text := "User interrupted", continue_flag := false }
      | (some c, _) =>
        let continue_response := pyLower (pyStrip c)
        { text := feedback_text
          continue_flag :=
            continue_response ∈ (["", "y", "yes", "true", "1"] : List String) }

/-- `MockInteractionHook.request_user_feedback` (lines 96–111): returns the
pre-configured pair (the interaction counter is observability only). -/
def mock_request_user_feedback (auto_continue : Bool)
    (default_feedback : String) : Feedback :=
  { text := default_feedback, continue_flag := auto_continue }

/-- Presence of every field the specification's Plan schema lists as
required — `summary`, `description`, `priority`, `estimated_effort`,
`goals`, `files_to_modify`, `tests_to_add`, `dependencies`, `risks`,
`success_criteria`, `plan_id`, `created_at` — with `goals` non-empty
(the property claimed for every plan the pipeline emits). -/
def PlanDict.allRequiredPresent (p : PlanDict) : Bool :=
  p.summary.isSome && p.description.isSome && p.priority.isSome &&
    p.estimated_effort.isSome &&
    (match p.goals with | some g => !g.falsy | none => false) &&
    p.files_to_modify.isSome && p.tests_to_add.isSome &&
    p.dependencies.isSome && p.risks.isSome && p.success_criteria.isSome &&
    p.plan_id.isSome && p.created_at.isSome

/-- Presence of the five keys `_validate_and_enhance_plan` actually
back-fills, with `goals` non-falsy (present on every pipeline plan). -/
def PlanDict.coreFieldsPresent (p : PlanDict) : Bool :=
  p.summary.isSome && p.description.isSome &&
    (match p.goals with | some g => !g.falsy | none => false) &&
    p.files_to_modify.isSome && p.tests_to_add.isSome

/-- The extra fields guaranteed only on the successful-generation path:
`plan_id`, `created_at`, `priority` present, `success_criteria` present and
non-falsy. -/
def PlanDict.genExtrasPresent (p : PlanDict) : Bool :=
  p.plan_id.isSome && p.created_at.isSome && p.priority.isSome &&
    (match p.success_criteria with | some v => !v.falsy | none => false)

/-! ## Planner front end (src/reb00t/helix/agents/planner.py)

`Planner._requires_user_feedback` is a pure function of the plan dict; the
orchestrator only ever reads the five plan keys `summary`, `description`,
`goals`, `files_to_modify` and `tests_to_add`, so the plan flowing through
the cycle is modelled by the typed record `Plan` holding exactly those
fields (both the validated generative plan and the fallback plan populate
all five with values of these types).
-/

/-- The plan fields the orchestrator and planner front end read. -/
structure Plan where
  summary : String
  description : String
  goals : List String
  files_to_modify : List String
  tests_to_add : List String
deriving DecidableEq

/-- The fallback plan of planner.py lines 21–28, at the typed level. -/
def fallbackPlan : Plan :=
  { summary := "Continue development according to current progress"
    description := "Proceed with next development steps based on current state"
    goals := ["Continue implementation", "Update tests", "Maintain progress"]
    files_to_modify := ["reb00t/helix/agentic_system.py"]
    tests_to_add := ["basic_functionality_test"] }

/-- `Planner._requires_user_feedback` (planner.py lines 83–92): any of four
complexity indicators — more than three files to modify, or the lowercased
description containing `"breaking"`, `"major"`, or `"architecture"`. -/
def requires_user_feedback (plan : Plan) : Bool :=
  [ decide (plan.files_to_modify.length > 3),
    pyIn "breaking" (pyLower plan.description),
    pyIn "major" (pyLower plan.description),
    pyIn "architecture" (pyLower plan.description) ].any id

/-- The feedback-threshold policy as the specification words it
(spec.md §4.2): the plan requires user feedback iff `files_to_modify` has
length greater than 3, or the description contains `"breaking"`, `"major"`
or `"architecture"` as a case-insensitive substring — where *case-insensitive
substring* is spelled out as a contiguous decomposition of the lowercased
character sequence. -/
def requiresFeedbackSpec (plan : Plan) : Prop :=
  3 < plan.files_to_modify.length ∨
    ∃ kw ∈ (["breaking", "major", "architecture"] : List String),
      ∃ pre post : List Char,
        (plan.description.toList.map Char.toLower) = pre ++ kw.toList ++ post

/-- `PlannerAgent._analyze_current_state`, priority-areas part
(planner_agent.py lines 80–85): keyed on the current step label. -/
def priority_areas (step : String) : List String :=
  if pyIn "preparation" (pyLower step) then
    ["spec_completion", "basic_structure", "testing_framework"]
  else if pyIn "refinement" (pyLower step) then
    ["implementation", "testing", "integration"]
  else []

/-! ## The refinement cycle (src/reb00t/helix/agents/coordinator_agent.py)

`run_refinement_cycle` mutates a local `results` dict and wraps the staged
body in `try/except Exception`; a raise inside the body keeps every mutation
made before it.  The body is therefore embedded in the monad
`CycleM α = CycleSt → Except String α × CycleSt`: a throw carries the state
(results, store-call log, call counters) forward to the handler.

The environment `CycleEnv` supplies the pluggable collaborators:

* `load0` — outcome of the `load_progress()` call made *before* the `try`
  (coordinator_agent.py line 41); an `.error` is a raised persistence
  exception at a point where no handler is installed;
* `gen` — outcome of `PlannerAgent.create_plan` as seen by
  `Planner.plan_next_refinement`: `some plan` when `success=True` (the
  validated plan, restricted to the fields the cycle reads), `none` when
  `success=False` (the fallback plan is then used);
* `gate` — the interaction hook: result of its n-th invocation;
* `run_tests` — the verification capability: result of `_run_e2e_tests()`
  on the n-th attempt (the shipped method always passes; tests substitute
  it, which this parameter models);
* `store_op` — fallibility of the n-th `ProgressManager` call made inside
  the `try` (each `add_note`/`update_progress` is a read-modify-write that
  may raise; `some msg` makes the n-th call raise `msg`).
-/

/-- `{"passed": bool, "errors": [...], "output": str}` of the verification
capability. -/
structure TestResult where
  passed : Bool
  errors : List String
  output : String
deriving DecidableEq

/-- `_run_e2e_tests` as shipped (coordinator_agent.py lines 175–195):
always reports a pass. -/
def default_run_e2e_tests (_attempt : Nat) : TestResult :=
  { passed := true, errors := [], output := "All tests passed" }

/-- A `ProgressManager` call made by the cycle (`task` is never passed). -/
inductive StoreCall where
  | add_note (note : String)
  | update_progress (step : String) (details : List String) (notes : List String)
deriving DecidableEq

/-- The `results` dict of `run_refinement_cycle` (lines 32–39); the
`should_continue`/`completion_reason` keys only exist once stage 7 sets
them. -/
structure CycleResult where
  cycle_completed : Bool
  steps_completed : List String
  errors : List String
  user_feedback_required : Bool
  spec_changed : Bool
  committed : Bool
  should_continue : Option Bool
  completion_reason : Option String
deriving DecidableEq

/-- The fresh `results` dict (lines 32–39). -/
def initResults : CycleResult :=
  { cycle_completed := false, steps_completed := [], errors := []
    user_feedback_required := false, spec_changed := false, committed := false
    should_continue := none, completion_reason := none }

/-- Mutable state of one `run_refinement_cycle` call: the `results` dict,
the log of progress-store calls issued so far, and the call counters that
index into the environment's collaborator outcomes. -/
structure CycleSt where
  results : CycleResult
  log : List StoreCall
  store_idx : Nat
  gate_idx : Nat
deriving DecidableEq

/-- The collaborators of one cycle run (see section header). -/
structure CycleEnv where
  load0 : Except String Progress
  gen : Option Plan
  gate : Nat → Feedback
  run_tests : Nat → TestResult
  store_op : Nat → Option String
  max_attempts : Nat

/-- Except-over-state: a throw preserves the state mutated so far, matching
Python in-place mutation of `results` under `try/except`. -/
def CycleM (α : Type) : Type :=
  CycleSt → Except String α × CycleSt

instance : Monad CycleM where
  pure a := fun st => (.ok a, st)
  bind m f := fun st =>
    match m st with
    | (.ok a, st1) => f a st1
    | (.error e, st1) => (.error e, st1)

/-- Raise a Python exception carrying message `e`. -/
def CycleM.throw (e : String) : CycleM α :=
  fun st => (.error e, st)

/-- Read the current state. -/
def CycleM.get : CycleM CycleSt :=
  fun st => (.ok st, st)

/-- Replace the state. -/
def CycleM.modifyResults (f : CycleResult → CycleResult) : CycleM Unit :=
  fun st => (.ok (), { st with results := f st.results })

/-- `results["steps_completed"].append(name)`. -/
def appendStep (name : String) : CycleM Unit :=
  CycleM.modifyResults fun r =>
    { r with steps_completed := r.steps_completed ++ [name] }

/-- `results["errors"].append(msg)`. -/
def appendError (msg : String) : CycleM Unit :=
  CycleM.modifyResults fun r => { r with errors := r.errors ++ [msg] }

/-- Issue one `ProgressManager` call: log it, bump the call counter, and
raise iff the environment makes this call fail. -/
def storeCall (env : CycleEnv) (c : StoreCall) : CycleM Unit :=
  fun st =>
    let st1 := { st with log := st.log ++ [c], store_idx := st.store_idx + 1 }
    match env.store_op st.store_idx with
    | none => (.ok (), st1)
    | some msg => (.error msg, st1)

/-- `self.progress_manager.add_note(note)`. -/
def addNote (env : CycleEnv) (note : String) : CycleM Unit :=
  storeCall env (.add_note note)

/-- Invoke the interaction hook and bump its call counter. -/
def gateCall (env : CycleEnv) : CycleM Feedback :=
  fun st =>
    (.ok (env.gate st.gate_idx), { st with gate_idx := st.gate_idx + 1 })

/-- Result dict of `Planner.plan_next_refinement`. -/
structure PlanStepResult where
  plan : Plan
  user_feedback_required : Bool
deriving DecidableEq

/-- `Planner.plan_next_refinement` (planner.py lines 15–81): choose the
generated or fallback plan, note the analysis (success only) and the plan
summary, and when the plan requires user feedback consult the interaction
hook — a `continue=False` answer persists a "stopped" update and raises
`RuntimeError("User chose to stop refinement cycle")`; otherwise record the
feedback and the approval update. -/
def plan_next_refinement (env : CycleEnv) (current_progress : Progress) :
    CycleM PlanStepResult := do
  let plan ←
    match env.gen with
    | none => pure fallbackPlan
    | some p => do
      addNote env ("Plan analysis: " ++ pyListRepr (priority_areas current_progress.step))
      pure p
  addNote env ("Generated refinement plan: " ++ plan.summary)
  let ufr := requires_user_feedback plan
  if ufr then do
    let user_feedback ← gateCall env
    if !user_feedback.continue_flag then do
      storeCall env (.update_progress "B: Refinement, step 1"
        ["Plan created but user chose to stop"]
        ["User feedback: " ++ user_feedback.text])
      CycleM.throw "User chose to stop refinement cycle"
    else do
      if user_feedback.text ≠ "" then
        addNote env ("User feedback: " ++ user_feedback.text)
      addNote env "User approved plan, continuing with refinement"
      storeCall env (.update_progress "B: Refinement, step 1 (approved)"
        ["Plan approved: " ++ plan.summary, "Proceeding with implementation"]
        ["Plan details: " ++ plan.description])
      pure { plan := plan, user_feedback_required := ufr }
  else
    pure { plan := plan, user_feedback_required := ufr }

/-- `CoordinatorAgent._adjust_e2e_test` (lines 102–117): derive the fixed
adjustment set from the `"progress integration"` trigger and note it. -/
def adjust_e2e_test (env : CycleEnv) (plan : Plan) : CycleM (List String) := do
  let test_adjustments :=
    if pyIn "progress integration" (pyLower plan.description) then
      ["Add progress functionality tests", "Verify progress events in history",
       "Test progress note addition"]
    else []
  addNote env ("E2E test adjustments planned: " ++
    String.intercalate ", " test_adjustments)
  pure test_adjustments

/-- `CoordinatorAgent._implement_refinement` (lines 119–137): synthesize an
"implemented"/"added test" record per goal and per planned test and note the
count. -/
def implement_refinement (env : CycleEnv) (plan : Plan) : CycleM (List String) := do
  let implementation_results :=
    plan.goals.map (fun g => "Implemented: " ++ g) ++
      plan.tests_to_add.map (fun t => "Added unit test: " ++ t)
  addNote env ("Implementation completed: " ++
    toString implementation_results.length ++ " items")
  pure implementation_results

/-- `CoordinatorAgent._fix_implementation` (lines 197–209). -/
def fix_implementation (errors : List String) : String :=
  "Applied fixes for " ++ toString errors.length ++ " errors"

/-- `CoordinatorAgent._consider_test_adjustment` (lines 211–222): adjust iff
more than two errors were reported. -/
def consider_test_adjustment (errors : List String) : Bool × String :=
  if errors.length > 2 then
    (true, "Test expectations were too strict for current implementation")
  else
    (false, "Test adjustment not needed")

/-- The parsed user decision of `_handle_implementation_failure`
(lines 353–383). -/
structure UserDecision where
  action : String
  guidance : String
  reason : String
deriving DecidableEq

/-- `CoordinatorAgent._handle_implementation_failure` (lines 353–383):
escalate to the hook; `continue=False` means stop, otherwise classify the
free text by first matching keyword. -/
def handle_implementation_failure (env : CycleEnv) : CycleM UserDecision := do
  let user_decision ← gateCall env
  if !user_decision.continue_flag then
    pure { action := "stop", guidance := ""
           reason := "User chose to stop after implementation failure" }
  else
    let feedback_text := pyLower user_decision.text
    if pyIn "different" feedback_text || pyIn "approach" feedback_text then
      pure { action := "retry_different", guidance := user_decision.text, reason := "" }
    else if pyIn "simplify" feedback_text then
      pure { action := "simplify", guidance := user_decision.text, reason := "" }
    else if pyIn "continue" feedback_text || pyIn "anyway" feedback_text then
      pure { action := "continue", guidance := user_decision.text, reason := "" }
    else
      pure { action := "retry", guidance := user_decision.text, reason := "" }

/-- Status dict returned by `_check_and_fix_tests`. -/
structure CheckResult where
  status : String
  attempts : Nat
deriving DecidableEq

/-- The `for attempt in range(max_attempts)` loop of `_check_and_fix_tests`
(lines 141–157), structurally recursive on the remaining iteration count
(`fuel = max_attempts - attempt` at every call).  Returns `some` on an early
`return` inside the loop, `none` when the loop runs to exhaustion. -/
def check_loop (env : CycleEnv) (fuel attempt : Nat) :
    CycleM (Option CheckResult) :=
  match fuel with
  | 0 => pure none
  | fuel + 1 => do
    let test_result := env.run_tests attempt
    if test_result.passed then do
      addNote env ("E2E tests passed on attempt " ++ toString (attempt + 1))
      pure (some { status := "passed", attempts := attempt + 1 })
    else if attempt < env.max_attempts - 1 then do
      addNote env ("Attempt " ++ toString (attempt + 1) ++
        " failed, applying fix: " ++ fix_implementation test_result.errors)
      check_loop env fuel (attempt + 1)
    else do
      let adjustment := consider_test_adjustment test_result.errors
      if adjustment.1 then do
        addNote env ("Adjusted e2e test: " ++ adjustment.2)
        pure (some { status := "test_adjusted", attempts := attempt + 1 })
      else
        check_loop env fuel (attempt + 1)

/-- `CoordinatorAgent._check_and_fix_tests` (lines 139–173): the bounded
retry loop, then the escalation path on exhaustion. -/
def check_and_fix_tests (env : CycleEnv) : CycleM CheckResult := do
  match ← check_loop env env.max_attempts 0 with
  | some r => pure r
  | none => do
    addNote env "Implementation failed after maximum attempts"
    let user_decision ← handle_implementation_failure env
    if user_decision.action == "stop" then
      pure { status := "aborted", attempts := env.max_attempts }
    else if user_decision.action == "continue" then do
      addNote env ("User chose to continue despite failures: " ++
        user_decision.guidance)
      pure { status := "continued_with_failures", attempts := env.max_attempts }
    else do
      addNote env ("User guidance for next iteration: " ++ user_decision.guidance)
      pure { status := "aborted", attempts := env.max_attempts }

/-- `CoordinatorAgent._review_and_update_spec` with its two helpers
(lines 224–258): the `"progress integration"` trigger decides whether spec
changes are synthesized; returns the `changed` flag. -/
def review_and_update_spec (env : CycleEnv) (current_plan : Plan) :
    CycleM Bool := do
  if pyIn "progress integration" (pyLower current_plan.description) then do
    let changes := ["Add ProgressManager integration to AgenticSystem documentation",
                    "Update workflow to include progress tracking"]
    addNote env ("Updated spec: " ++
      ("Applied " ++ toString changes.length ++ " spec changes"))
    pure true
  else do
    addNote env "No spec changes needed"
    pure false

/-- `CoordinatorAgent._commit_changes` (lines 260–278): synthesize the
commit message and note the commit inside the method's own
`try/except Exception`: an exception there (in this body, only the store
call's) is caught locally and returned as `success=False` — it does not
reach the cycle's blanket handler, so the cycle continues with
`committed=False` and no errors entry. -/
def commit_changes (env : CycleEnv) (plan : Plan) : CycleM Bool :=
  fun st =>
    let _commit_message := "feat: " ++ plan.summary ++ "\n\n" ++ plan.description
    match addNote env ("Committed changes: " ++ plan.summary) st with
    | (.ok _, st1) => (.ok true, st1)
    | (.error _, st1) => (.ok false, st1)

/-- `CoordinatorAgent._should_continue` (lines 280–300): the placeholder
continue-decision, always `{continue: True, reason: "More refinements
available"}`. -/
def should_continue_decision : Bool × String :=
  (true, "More refinements available")

/-- The `try` body of `run_refinement_cycle` (lines 43–85). -/
def cycle_body (env : CycleEnv) (current_progress : Progress) : CycleM Unit := do
  let plan_result ← plan_next_refinement env current_progress
  appendStep "plan"
  let plan := plan_result.plan
  let _ ← adjust_e2e_test env plan
  appendStep "adjust_test"
  let _ ← implement_refinement env plan
  appendStep "implement"
  let test_check_result ← check_and_fix_tests env
  appendStep "test_check"
  if test_check_result.status == "aborted" then do
    appendError "Implementation failed after multiple attempts"
    storeCall env (.update_progress "B: Refinement, step 4"
      ["Implementation aborted", "Plan needs to change"]
      ["Multiple implementation attempts failed"])
    return ()
  else do
    let spec_changed ← review_and_update_spec env plan
    appendStep "spec_review"
    CycleM.modifyResults fun r => { r with spec_changed := spec_changed }
    let commit_success ← commit_changes env plan
    appendStep "commit"
    CycleM.modifyResults fun r => { r with committed := commit_success }
    let continue_result := should_continue_decision
    CycleM.modifyResults fun r =>
      { r with should_continue := some continue_result.1
               completion_reason := some continue_result.2 }
    CycleM.modifyResults fun r => { r with cycle_completed := true }
    storeCall env (.update_progress "B: Refinement, step 7"
      ["Refinement cycle completed successfully"]
      ["Completed plan: " ++ plan.summary])

/-- `CoordinatorAgent.run_refinement_cycle` (lines 30–90): load progress
(outside any handler — a failure here propagates to the caller), run the
staged body under `try/except Exception` (any raise is appended to `errors`
as `"Refinement cycle failed: ..."` and the accumulated results returned). -/
def run_refinement_cycle (env : CycleEnv) : Except String CycleResult :=
  match env.load0 with
  | .error e => .error e
  | .ok current_progress =>
    let st0 : CycleSt :=
      { results := initResults, log := [], store_idx := 0, gate_idx := 0 }
    match cycle_body env current_progress st0 with
    | (.ok _, st) => .ok st.results
    | (.error e, st) =>
      .ok { st.results with
              errors := st.results.errors ++ ["Refinement cycle failed: " ++ e] }

/-- The initial state of one cycle run. -/
def st0 : CycleSt :=
  { results := initResults, log := [], store_idx := 0, gate_idx := 0 }

/-- The results dict of a fully successful cycle pass (the `spec_changed`
flag is whatever the spec-review heuristic computed). -/
def completedResult (sc : Bool) : CycleResult :=
  { cycle_completed := true
    steps_completed := ["plan", "adjust_test", "implement", "test_check",
      "spec_review", "commit"]
    errors := []
    user_feedback_required := false
    spec_changed := sc
    committed := true
    should_continue := some true
    completion_reason := some "More refinements available" }

/-! # Theorems -/

/-! ## Substring lemmas -/

theorem leadsWith_iff (n : List Char) :
    ∀ h : List Char, leadsWith n h = true ↔ ∃ t, h = n ++ t := by
  induction n with
  | nil =>
    intro h
    simp [leadsWith]
  | cons c cs ih =>
    intro h
    cases h with
    | nil => simp [leadsWith]
    | cons d ds =>
      rw [show leadsWith (c :: cs) (d :: ds) = (c == d && leadsWith cs ds) from rfl,
        Bool.and_eq_true, beq_iff_eq, ih]
      constructor
      · rintro ⟨rfl, t, rfl⟩
        exact ⟨t, rfl⟩
      · rintro ⟨t, ht⟩
        simp only [List.cons_append] at ht
        rcases List.cons_eq_cons.mp ht with ⟨rfl, rfl⟩
        exact ⟨rfl, t, rfl⟩

theorem hasSub_iff (n : List Char) :
    ∀ h : List Char, hasSub n h = true ↔ ∃ pre post, h = pre ++ n ++ post := by
  intro h
  induction h with
  | nil =>
    simp only [hasSub, List.isEmpty_iff]
    constructor
    · rintro rfl
      exact ⟨[], [], rfl⟩
    · rintro ⟨pre, post, hp⟩
      rcases List.append_eq_nil.mp hp.symm with ⟨h1, h2⟩
      exact (List.append_eq_nil.mp h1).2
  | cons c t ih =>
    simp only [hasSub, Bool.or_eq_true, leadsWith_iff, ih]
    constructor
    · rintro (⟨tl, heq⟩ | ⟨pre, post, rfl⟩)
      · exact ⟨[], tl, heq⟩
      · exact ⟨c :: pre, post, rfl⟩
    · rintro ⟨pre, post, heq⟩
      cases pre with
      | nil => exact Or.inl ⟨post, by simpa using heq⟩
      | cons p ps =>
        rcases List.cons_eq_cons.mp heq with ⟨rfl, rfl⟩
        exact Or.inr ⟨ps, post, rfl⟩

theorem pyLower_toList (s : String) :
    (pyLower s).toList = s.toList.map Char.toLower := rfl

theorem pyIn_iff (needle hay : String) :
    pyIn needle hay = true ↔
      ∃ pre post, hay.toList = pre ++ needle.toList ++ post := by
  simpa [pyIn] using hasSub_iff needle.toList hay.toList

/-- C7: `requires_user_feedback` holds exactly when the plan touches more
than three files or its description contains `"breaking"`, `"major"` or
`"architecture"` case-insensitively — and for no other reason: the policy is
an if-and-only-if against the spec's written rule. -/
theorem C7_feedback_policy (plan : Plan) :
    requires_user_feedback plan = true ↔ requiresFeedbackSpec plan := by
  have hcode : requires_user_feedback plan = true ↔
      3 < plan.files_to_modify.length ∨
        pyIn "breaking" (pyLower plan.description) = true ∨
        pyIn "major" (pyLower plan.description) = true ∨
        pyIn "architecture" (pyLower plan.description) = true := by
    simp [requires_user_feedback, List.any, Bool.or_eq_true, Nat.lt_iff_add_one_le]
  rw [hcode]
  unfold requiresFeedbackSpec
  constructor
  · rintro (h | h | h | h)
    · exact Or.inl h
    · exact Or.inr ⟨"breaking", by simp, by
        simpa [pyLower_toList] using (pyIn_iff _ _).mp h⟩
    · exact Or.inr ⟨"major", by simp, by
        simpa [pyLower_toList] using (pyIn_iff _ _).mp h⟩
    · exact Or.inr ⟨"architecture", by simp, by
        simpa [pyLower_toList] using (pyIn_iff _ _).mp h⟩
  · rintro (h | ⟨kw, hkw, hk⟩)
    · exact Or.inl h
    · have hin : ∀ kw0 : String,
          (∃ pre post,
            plan.description.toList.map Char.toLower = pre ++ kw0.toList ++ post) →
          pyIn kw0 (pyLower plan.description) = true := by
        intro kw0 hex
        exact (pyIn_iff _ _).mpr (by simpa [pyLower_toList] using hex)
      simp only [List.mem_cons, List.mem_singleton, List.not_mem_nil,
        or_false] at hkw
      rcases hkw with rfl | rfl | rfl
      · exact Or.inr (Or.inl (hin _ hk))
      · exact Or.inr (Or.inr (Or.inl (hin _ hk)))
      · exact Or.inr (Or.inr (Or.inr (hin _ hk)))

/-- C8: writing a progress record and loading it back is the identity —
serialization stores every field, and the loader's back-fill never touches a
present field. -/
theorem C8_round_trip (p : Progress) :
    load_progress_from (write_progress p) = p := by
  cases p
  rfl

/-- C9: the blocking CLI feedback gate (with terminal input modelled as a
stream of typed lines and interrupts): (1) a free-text input of `quit`,
`exit` or `stop` yields `continue=false` with the synthetic text
`"User requested to stop"`; (2) an interrupt during the first blocking read
is caught and yields `continue=false` with the synthetic
`"User interrupted"` text rather than propagating; (3) so does an interrupt
during the continuation prompt; (4) an empty response to the continuation
prompt defaults to `continue=true`. -/
theorem C9_cli_gate :
    (∀ s, s ∈ (["quit", "exit", "stop"] : List String) → ∀ rest,
      request_user_feedback (.line s :: rest) =
        { text := "User requested to stop", continue_flag := false }) ∧
    (∀ rest, request_user_feedback (.interrupt :: rest) =
        { text := "User interrupted", continue_flag := false }) ∧
    (∀ s rest, pyLower (pyStrip s) ∉ (["quit", "exit", "stop"] : List String) →
      request_user_feedback (.line s :: .interrupt :: rest) =
        { text := "User interrupted", continue_flag := false }) ∧
    (∀ s rest, pyLower (pyStrip s) ∉ (["quit", "exit", "stop"] : List String) →
      request_user_feedback (.line s :: .line "" :: rest) =
        { text := pyStrip s, continue_flag := true }) := by
  refine ⟨?_, ?_, ?_, ?_⟩
  · rintro s hs rest
    simp only [List.mem_cons, List.mem_singleton, List.not_mem_nil,
      or_false] at hs
    rcases hs with rfl | rfl | rfl
    · rfl
    · rfl
    · rfl
  · intro rest
    rfl
  · intro s rest hn
    simp only [request_user_feedback, readTermInput]
    rw [if_neg hn]
  · intro s rest hn
    simp only [request_user_feedback, readTermInput]
    rw [if_neg hn]
    rfl

/-- Witness for C9 at concrete inputs. -/
theorem C9_cli_gate_witness :
    request_user_feedback [.line "quit"] =
        { text := "User requested to stop", continue_flag := false } ∧
    request_user_feedback [.line " hello ", .line ""] =
        { text := "hello", continue_flag := true } := by
  constructor
  · exact C9_cli_gate.1 "quit" (by decide) []
  · exact C9_cli_gate.2.2.2 " hello " [] (by decide)

/-! ## Planner pipeline theorems -/

theorem validate_plan_id (p : PlanDict) (n : Nat) (t : String) :
    (validate_and_enhance_plan p n t).plan_id =
      some (.s ("plan_" ++ toString (n + 1))) := rfl

theorem validate_core_fields (p : PlanDict) (n : Nat) (t : String) :
    (validate_and_enhance_plan p n t).coreFieldsPresent = true := by
  unfold validate_and_enhance_plan PlanDict.coreFieldsPresent
  cases hg : p.goals with
  | none =>
    simp
    decide
  | some g =>
    by_cases hf : g.falsy = true
    · simp [hf]
      decide
    · simp [hf]

theorem validate_gen_extras (p : PlanDict) (n : Nat) (t : String) :
    (validate_and_enhance_plan p n t).genExtrasPresent = true := by
  unfold validate_and_enhance_plan PlanDict.genExtrasPresent
  cases hs : p.success_criteria with
  | none =>
    simp
    decide
  | some v =>
    by_cases hf : v.falsy = true
    · simp [hf]
      decide
    · simp [hf]

theorem plan_next_refinement_plan_ok (history : List PlanDict) (q : PlanDict)
    (now : String) :
    plan_next_refinement_plan history (.ok q) now =
      validate_and_enhance_plan q history.length now := rfl

/-- C2, counterexample to the claim as stated: the planning pipeline emits
plans on which not every required Plan-schema field is present — the
fallback plan (generation failure) lacks `priority`, `estimated_effort`,
`dependencies`, `risks`, `success_criteria`, `plan_id` and `created_at`,
and even a successfully validated empty generative response lacks
`estimated_effort`, `dependencies` and `risks`. -/
theorem C2_counterexample :
    (plan_next_refinement_plan [] (.error "transport error")
        "2026-01-01T00:00:00").allRequiredPresent = false ∧
    (plan_next_refinement_plan [] (.ok PlanDict.empty)
        "2026-01-01T00:00:00").allRequiredPresent = false := by
  exact ⟨rfl, rfl⟩

/-- C2, amended: every plan the pipeline emits has `summary`, `description`,
`files_to_modify` and `tests_to_add` present and `goals` present and
non-empty; on the successful-generation path the validator additionally
guarantees `plan_id`, `created_at`, `priority`, and a non-empty
`success_criteria` — but `estimated_effort`, `dependencies` and `risks` are
only present when the generative response supplies them. -/
theorem C2_plan_fields_amended (history : List PlanDict)
    (gen : Except String PlanDict) (now : String) :
    (plan_next_refinement_plan history gen now).coreFieldsPresent = true ∧
    (∀ q, gen = .ok q →
      (plan_next_refinement_plan history gen now).genExtrasPresent = true) := by
  cases gen with
  | error e =>
    refine ⟨rfl, ?_⟩
    intro q h
    cases h
  | ok q =>
    refine ⟨?_, ?_⟩
    · rw [plan_next_refinement_plan_ok]
      exact validate_core_fields q history.length now
    · intro q' h
      rw [plan_next_refinement_plan_ok]
      exact validate_gen_extras q history.length now

/-- Witness for C2 at a concrete generative response. -/
theorem C2_plan_fields_amended_witness :
    (plan_next_refinement_plan [] (.ok fallbackPlanDict)
        "2026-01-01T00:00:00").coreFieldsPresent = true ∧
    (plan_next_refinement_plan [] (.ok fallbackPlanDict)
        "2026-01-01T00:00:00").genExtrasPresent = true := by
  have h := C2_plan_fields_amended [] (.ok fallbackPlanDict) "2026-01-01T00:00:00"
  exact ⟨h.1, h.2 fallbackPlanDict rfl⟩

/-- C4, counterexample to the claim as stated: when the generative call
fails, `create_plan` does *not* return `success=true` — there is no internal
fallback inside `create_plan`. -/
theorem C4_counterexample :
    ¬ ((create_plan [] (.error "transport error")
        "2026-01-01T00:00:00").1.success = true) := by
  decide

/-- C4, amended: `create_plan` returns `success=true` exactly when the
generative call yields a parseable structured response; on a generation
failure it returns `success=false` with the error and `plan=None`, and the
fixed default plan (generic goals, a single target file, one placeholder
test) is supplied one level up by `Planner.plan_next_refinement`, which
always yields a plan. -/
theorem C4_fallback_amended (history : List PlanDict)
    (gen : Except String PlanDict) (now : String) :
    ((create_plan history gen now).1.success = true ↔ ∃ p, gen = .ok p) ∧
    (∀ e, gen = .error e →
      (create_plan history gen now).1 =
        { success := false, plan := none, error := some e } ∧
      plan_next_refinement_plan history gen now = fallbackPlanDict) := by
  cases gen with
  | error e =>
    refine ⟨?_, ?_⟩
    · simp [create_plan]
    · intro e' h
      cases h
      exact ⟨rfl, rfl⟩
  | ok p =>
    refine ⟨?_, ?_⟩
    · exact ⟨fun _ => ⟨p, rfl⟩, fun _ => rfl⟩
    · intro e h
      cases h

/-- Witness for C4 at a concrete failing generation. -/
theorem C4_fallback_amended_witness :
    (create_plan [] (.error "transport error") "2026-01-01T00:00:00").1 =
      { success := false, plan := none, error := some "transport error" } ∧
    plan_next_refinement_plan [] (.error "transport error")
        "2026-01-01T00:00:00" = fallbackPlanDict := by
  exact (C4_fallback_amended [] (.error "transport error")
    "2026-01-01T00:00:00").2 "transport error" rfl

theorem create_plan_fold_ok_cons (hist : List PlanDict) (p : PlanDict)
    (t : String) (rest : List (Except String PlanDict × String)) :
    create_plan_fold hist ((.ok p, t) :: rest) =
      create_plan_fold (hist ++ [validate_and_enhance_plan p hist.length t])
        rest := rfl

theorem create_plan_fold_ids (gens : List (PlanDict × String)) :
    ∀ hist : List PlanDict,
      (∀ i (h : i < hist.length),
        (hist.get ⟨i, h⟩).plan_id = some (.s ("plan_" ++ toString (i + 1)))) →
      (create_plan_fold hist
          (gens.map fun g => (Except.ok g.1, g.2))).length =
          hist.length + gens.length ∧
      ∀ i (h : i < (create_plan_fold hist
          (gens.map fun g => (Except.ok g.1, g.2))).length),
        ((create_plan_fold hist
            (gens.map fun g => (Except.ok g.1, g.2))).get ⟨i, h⟩).plan_id =
          some (.s ("plan_" ++ toString (i + 1))) := by
  induction gens with
  | nil =>
    intro hist hinv
    exact ⟨by simp [create_plan_fold], fun i h => hinv i h⟩
  | cons g gens ih =>
    intro hist hinv
    rw [List.map_cons, create_plan_fold_ok_cons]
    have hinv2 : ∀ i (h : i <
        (hist ++ [validate_and_enhance_plan g.1 hist.length g.2]).length),
        ((hist ++ [validate_and_enhance_plan g.1 hist.length g.2]).get
            ⟨i, h⟩).plan_id = some (.s ("plan_" ++ toString (i + 1))) := by
      intro i h
      rcases Nat.lt_or_ge i hist.length with hlt | hge
      · rw [List.get_append i hlt]
        exact hinv i hlt
      · have hi : i = hist.length := by
          simp only [List.length_append, List.length_singleton] at h
          omega
        subst hi
        have hlast : (hist ++ [validate_and_enhance_plan g.1 hist.length g.2]).get
            ⟨hist.length, h⟩ = validate_and_enhance_plan g.1 hist.length g.2 := by
          simp [List.get_eq_getElem]
        rw [hlast, validate_plan_id]
    have hmain := ih (hist ++ [validate_and_enhance_plan g.1 hist.length g.2]) hinv2
    refine ⟨?_, hmain.2⟩
    rw [hmain.1]
    simp only [List.length_append, List.length_cons, List.length_nil]
    omega

/-- C6, counterexample to the claim as stated: the first successfully
emitted plan carries `plan_id` `"plan_1"` — the string `"plan_"` followed by
the 1-based index — not the bare value `1`. -/
theorem C6_counterexample :
    ((create_plan_fold [] [(.ok PlanDict.empty, "t0")]).map (·.plan_id)) =
        [some (.s "plan_1")] ∧
    PlanVal.s "plan_1" ≠ PlanVal.s "1" := by
  exact ⟨rfl, by decide⟩

/-- C6, amended: over any sequence of successive successful `create_plan`
calls starting from an empty history, the i-th emitted plan (0-based
position i in the history) carries `plan_id = "plan_" ++ toString (i+1)` —
the numeric suffixes are the consecutive 1-based positions `1, 2, 3, …`,
monotonically increasing with no gaps or repeats, derived from the history
length at creation time. -/
theorem C6_plan_id_amended (gens : List (PlanDict × String)) :
    (create_plan_fold [] (gens.map fun g => (Except.ok g.1, g.2))).length =
      gens.length ∧
    ∀ i (h : i < (create_plan_fold []
        (gens.map fun g => (Except.ok g.1, g.2))).length),
      ((create_plan_fold []
          (gens.map fun g => (Except.ok g.1, g.2))).get ⟨i, h⟩).plan_id =
        some (.s ("plan_" ++ toString (i + 1))) := by
  have h := create_plan_fold_ids gens []
    (by intro i h; exact absurd h (Nat.not_lt_zero i))
  simpa using h

/-- Witness for C6: two successive successful calls yield `"plan_1"` then
`"plan_2"`. -/
theorem C6_plan_id_amended_witness :
    ((create_plan_fold []
        ([(PlanDict.empty, "t1"), (fallbackPlanDict, "t2")].map
          fun g => (Except.ok g.1, g.2))).get ⟨1, by decide⟩).plan_id =
      some (.s "plan_2") := by
  exact (C6_plan_id_amended [(PlanDict.empty, "t1"), (fallbackPlanDict, "t2")]).2
    1 (by decide)

/-! ## Cycle theorems -/

theorem CycleM.bind_apply (m : CycleM α) (f : α → CycleM β) (st : CycleSt) :
    (m >>= f) st =
      match m st with
      | (.ok a, st1) => f a st1
      | (.error e, st1) => (.error e, st1) := rfl

theorem CycleM.pure_apply (a : α) (st : CycleSt) :
    (pure a : CycleM α) st = (.ok a, st) := rfl

/-- C3, counterexample to the claim as stated: a Progress Store write
failure *during* the cycle (here, on the very first `add_note` of the
planning stage) is caught by the orchestrator's blanket handler and
converted into an `errors` entry — it is not propagated to the caller. -/
theorem C3_counterexample :
    run_refinement_cycle
      { load0 := .ok defaultProgress
        gen := some fallbackPlan
        gate := fun _ => { text := "", continue_flag := true }
        run_tests := default_run_e2e_tests
        store_op := fun k =>
          if k == 0 then
            some "Error writing progress file progress.json: disk full"
          else none
        max_attempts := 3 } =
      .ok { cycle_completed := false
            steps_completed := []
            errors := ["Refinement cycle failed: Error writing progress file progress.json: disk full"]
            user_feedback_required := false
            spec_changed := false
            committed := false
            should_continue := none
            completion_reason := none } := by
  rfl

/-- C3, amended: `run_refinement_cycle` raises past its public boundary
exactly when the initial `load_progress()` — made before the `try` block —
fails.  A Progress Store failure inside the staged body never propagates,
but neither does it surface the way the claim says: it is caught — by the
blanket top-level handler, which converts it into a
`"Refinement cycle failed: ..."` errors entry (the counterexample), except
in the commit stage, whose own local `try/except` absorbs it into
`success=False`, after which the cycle finishes with `committed=false`,
*no* errors entry, and `cycle_completed=true` (the second conjunct: the
store call at index 5 is the commit stage's `add_note`). -/
theorem C3_persistence_amended (env : CycleEnv) (e : String) :
    (run_refinement_cycle env = .error e ↔ env.load0 = .error e) ∧
    run_refinement_cycle
      { load0 := .ok defaultProgress
        gen := none
        gate := fun _ => { text := "", continue_flag := true }
        run_tests := default_run_e2e_tests
        store_op := fun k =>
          if k == 5 then
            some "Error writing progress file progress.json: disk full"
          else none
        max_attempts := 3 } =
      .ok { cycle_completed := true
            steps_completed := ["plan", "adjust_test", "implement",
              "test_check", "spec_review", "commit"]
            errors := []
            user_feedback_required := false
            spec_changed := false
            committed := false
            should_continue := some true
            completion_reason := some "More refinements available" } := by
  refine ⟨?_, rfl⟩
  constructor
  · intro h
    cases henv : env.load0 with
    | error e' =>
      simp only [run_refinement_cycle, henv] at h
      injection h with h2
      subst h2
      rfl
    | ok p =>
      exfalso
      simp only [run_refinement_cycle, henv] at h
      rcases hcb : cycle_body env p
          { results := initResults, log := [], store_idx := 0, gate_idx := 0 }
        with ⟨o, st⟩
      rw [hcb] at h
      cases o with
      | ok a => cases h
      | error msg => cases h
  · intro h
    simp only [run_refinement_cycle, h]

/-- C1, counterexample to the claim as stated: with the Feedback Gate always
answering `continue=false` and a plan complex enough to consult it, the
cycle aborts with `cycle_completed=false` and a `"User chose to stop"`
error, but `steps_completed` is empty — the abort is raised inside the
planning stage, *before* `"plan"` is appended, so `"plan"` is not in
`steps_completed`. -/
theorem C1_counterexample :
    run_refinement_cycle
      { load0 := .ok defaultProgress
        gen := some { summary := "Refactor"
                      description := "Touch several modules"
                      goals := ["g1"]
                      files_to_modify := ["a.py", "b.py", "c.py", "d.py"]
                      tests_to_add := [] }
        gate := fun _ => { text := "Stop refinement", continue_flag := false }
        run_tests := default_run_e2e_tests
        store_op := fun _ => none
        max_attempts := 3 } =
      .ok { cycle_completed := false
            steps_completed := []
            errors := ["Refinement cycle failed: User chose to stop refinement cycle"]
            user_feedback_required := false
            spec_changed := false
            committed := false
            should_continue := none
            completion_reason := none } ∧
    ("plan" : String) ∉ ([] : List String) := by
  exact ⟨rfl, by decide⟩

/-- C1, amended: when the Feedback Gate always returns `continue=false` and
the produced plan triggers the user-feedback requirement, the cycle returns
`cycle_completed=false` with `errors[0] = "Refinement cycle failed: User
chose to stop refinement cycle"` (which contains the explicit user-stop
indication `"User chose to stop"`), and `steps_completed` is empty — no
stage name at all is recorded, `"plan"` included, because the abort fires
inside the planning stage before the stage name is appended. -/
theorem C1_user_stop_amended (p : Plan) (gtext : String) (prog : Progress)
    (hp : requires_user_feedback p = true) :
    run_refinement_cycle
      { load0 := .ok prog
        gen := some p
        gate := fun _ => { text := gtext, continue_flag := false }
        run_tests := default_run_e2e_tests
        store_op := fun _ => none
        max_attempts := 3 } =
      .ok { cycle_completed := false
            steps_completed := []
            errors := ["Refinement cycle failed: User chose to stop refinement cycle"]
            user_feedback_required := false
            spec_changed := false
            committed := false
            should_continue := none
            completion_reason := none } ∧
    pyIn "User chose to stop"
      "Refinement cycle failed: User chose to stop refinement cycle" = true := by
  refine ⟨?_, by decide⟩
  simp [run_refinement_cycle, cycle_body, plan_next_refinement, addNote,
    storeCall, gateCall, appendStep, appendError, CycleM.modifyResults,
    CycleM.throw, CycleM.bind_apply, CycleM.pure_apply, hp, initResults]


/-- Witness for C1 (amended) at a concrete feedback-requiring plan. -/
theorem C1_user_stop_amended_witness :
    run_refinement_cycle
      { load0 := .ok defaultProgress
        gen := some { summary := "Refactor core"
                      description := "Touch modules"
                      goals := ["g1"]
                      files_to_modify := ["a.py", "b.py", "c.py", "d.py"]
                      tests_to_add := [] }
        gate := fun _ => { text := "no thanks", continue_flag := false }
        run_tests := default_run_e2e_tests
        store_op := fun _ => none
        max_attempts := 3 } =
      .ok { cycle_completed := false
            steps_completed := []
            errors := ["Refinement cycle failed: User chose to stop refinement cycle"]
            user_feedback_required := false
            spec_changed := false
            committed := false
            should_continue := none
            completion_reason := none } := by
  exact (C1_user_stop_amended
    { summary := "Refactor core"
      description := "Touch modules"
      goals := ["g1"]
      files_to_modify := ["a.py", "b.py", "c.py", "d.py"]
      tests_to_add := [] }
    "no thanks" defaultProgress (by decide)).1

/-- C5: with `max_attempts = 3` — (1) two failing attempts followed by a
passing attempt make the test-check stage return
`{status: "passed", attempts: 3}`; (2) three failing attempts, each
reporting at most 2 errors (so the over-strict-test heuristic does not
fire), with the Feedback Gate answering `continue=false`, make it return
`{status: "aborted", attempts: 3}`, and the surrounding cycle then returns a
non-empty `errors` list whose entry,
`"Implementation failed after multiple attempts"`, records the user-stop
abort of the implementation. -/
theorem C5_bounded_retry (e0 e1 e2 : List String) (gtext : String)
    (prog : Progress) (h0 : e0.length ≤ 2) (h1 : e1.length ≤ 2)
    (h2 : e2.length ≤ 2) :
    (check_and_fix_tests
        { load0 := .ok prog
          gen := none
          gate := fun _ => { text := gtext, continue_flag := false }
          run_tests := fun n =>
            if n == 0 then { passed := false, errors := e0, output := "" }
            else if n == 1 then { passed := false, errors := e1, output := "" }
            else { passed := true, errors := [], output := "All tests passed" }
          store_op := fun _ => none
          max_attempts := 3 } st0).1 =
      .ok { status := "passed", attempts := 3 } ∧
    (check_and_fix_tests
        { load0 := .ok prog
          gen := none
          gate := fun _ => { text := gtext, continue_flag := false }
          run_tests := fun n =>
            if n == 0 then { passed := false, errors := e0, output := "" }
            else if n == 1 then { passed := false, errors := e1, output := "" }
            else { passed := false, errors := e2, output := "" }
          store_op := fun _ => none
          max_attempts := 3 } st0).1 =
      .ok { status := "aborted", attempts := 3 } ∧
    ∃ r, run_refinement_cycle
        { load0 := .ok prog
          gen := none
          gate := fun _ => { text := gtext, continue_flag := false }
          run_tests := fun n =>
            if n == 0 then { passed := false, errors := e0, output := "" }
            else if n == 1 then { passed := false, errors := e1, output := "" }
            else { passed := false, errors := e2, output := "" }
          store_op := fun _ => none
          max_attempts := 3 } = .ok r ∧
      r.errors = ["Implementation failed after multiple attempts"] ∧
      r.errors ≠ [] ∧
      r.steps_completed = ["plan", "adjust_test", "implement", "test_check"] ∧
      r.cycle_completed = false := by
  refine ⟨rfl, ?_⟩
  rcases e2 with _ | ⟨a, e2⟩
  · refine ⟨rfl, { cycle_completed := false, steps_completed := ["plan", "adjust_test", "implement", "test_check"], errors := ["Implementation failed after multiple attempts"], user_feedback_required := false, spec_changed := false, committed := false, should_continue := none, completion_reason := none }, rfl, rfl, ?_, rfl, rfl⟩
    decide
  rcases e2 with _ | ⟨b, e2⟩
  · refine ⟨rfl, { cycle_completed := false, steps_completed := ["plan", "adjust_test", "implement", "test_check"], errors := ["Implementation failed after multiple attempts"], user_feedback_required := false, spec_changed := false, committed := false, should_continue := none, completion_reason := none }, rfl, rfl, ?_, rfl, rfl⟩
    decide
  rcases e2 with _ | ⟨c, e2⟩
  · refine ⟨rfl, { cycle_completed := false, steps_completed := ["plan", "adjust_test", "implement", "test_check"], errors := ["Implementation failed after multiple attempts"], user_feedback_required := false, spec_changed := false, committed := false, should_continue := none, completion_reason := none }, rfl, rfl, ?_, rfl, rfl⟩
    decide
  · exfalso
    simp at h2


/-- Witness for C5 at concrete failing runs. -/
theorem C5_bounded_retry_witness :
    (check_and_fix_tests
        { load0 := .ok defaultProgress
          gen := none
          gate := fun _ => { text := "Stop", continue_flag := false }
          run_tests := fun n =>
            if n == 0 then { passed := false, errors := ["x"], output := "" }
            else if n == 1 then { passed := false, errors := ["y"], output := "" }
            else { passed := true, errors := [], output := "All tests passed" }
          store_op := fun _ => none
          max_attempts := 3 } st0).1 =
      .ok { status := "passed", attempts := 3 } ∧
    (check_and_fix_tests
        { load0 := .ok defaultProgress
          gen := none
          gate := fun _ => { text := "Stop", continue_flag := false }
          run_tests := fun n =>
            if n == 0 then { passed := false, errors := ["x"], output := "" }
            else if n == 1 then { passed := false, errors := ["y"], output := "" }
            else { passed := false, errors := ["z1", "z2"], output := "" }
          store_op := fun _ => none
          max_attempts := 3 } st0).1 =
      .ok { status := "aborted", attempts := 3 } := by
  have h := C5_bounded_retry ["x"] ["y"] ["z1", "z2"] "Stop" defaultProgress
    (by decide) (by decide) (by decide)
  exact ⟨h.1, h.2.1⟩

/-- C10: with the built-in always-passing verification capability, a
non-failing progress store, and an interaction hook that always returns
`continue=true`, `run_refinement_cycle` — whatever plan the planner produced
(generated or fallback) — returns `cycle_completed=true`, `committed=true`,
`should_continue=true`, no errors, and `steps_completed` exactly
`["plan", "adjust_test", "implement", "test_check", "spec_review",
"commit"]` in order; the continue-decision stage is never recorded. -/
theorem C10_full_cycle (g : Option Plan) (gtext : String) (prog : Progress) :
    ∃ r, run_refinement_cycle
      { load0 := .ok prog
        gen := g
        gate := fun _ => { text := gtext, continue_flag := true }
        run_tests := default_run_e2e_tests
        store_op := fun _ => none
        max_attempts := 3 } = .ok r ∧
      r.cycle_completed = true ∧ r.committed = true ∧
      r.should_continue = some true ∧ r.errors = [] ∧
      r.steps_completed =
        ["plan", "adjust_test", "implement", "test_check", "spec_review",
         "commit"] := by
  cases g with
  | none =>
    exact ⟨completedResult false, rfl, rfl, rfl, rfl, rfl, rfl⟩
  | some p =>
    cases h1 : requires_user_feedback p with
    | false =>
      cases h2 : pyIn "progress integration" (pyLower p.description) with
      | false =>
        refine ⟨completedResult false, ?_, rfl, rfl, rfl, rfl, rfl⟩
        simp [run_refinement_cycle, cycle_body, plan_next_refinement,
          adjust_e2e_test, implement_refinement, check_and_fix_tests,
          check_loop, handle_implementation_failure, review_and_update_spec,
          commit_changes, should_continue_decision, addNote, storeCall,
          gateCall, appendStep, appendError, CycleM.modifyResults,
          CycleM.throw, CycleM.bind_apply, CycleM.pure_apply, initResults,
          default_run_e2e_tests, fix_implementation,
          consider_test_adjustment, completedResult, h1, h2]
      | true =>
        refine ⟨completedResult true, ?_, rfl, rfl, rfl, rfl, rfl⟩
        simp [run_refinement_cycle, cycle_body, plan_next_refinement,
          adjust_e2e_test, implement_refinement, check_and_fix_tests,
          check_loop, handle_implementation_failure, review_and_update_spec,
          commit_changes, should_continue_decision, addNote, storeCall,
          gateCall, appendStep, appendError, CycleM.modifyResults,
          CycleM.throw, CycleM.bind_apply, CycleM.pure_apply, initResults,
          default_run_e2e_tests, fix_implementation,
          consider_test_adjustment, completedResult, h1, h2]
    | true =>
      by_cases h3 : gtext = ""
      · cases h2 : pyIn "progress integration" (pyLower p.description) with
        | false =>
          refine ⟨completedResult false, ?_, rfl, rfl, rfl, rfl, rfl⟩
          simp [run_refinement_cycle, cycle_body, plan_next_refinement,
          adjust_e2e_test, implement_refinement, check_and_fix_tests,
          check_loop, handle_implementation_failure, review_and_update_spec,
          commit_changes, should_continue_decision, addNote, storeCall,
          gateCall, appendStep, appendError, CycleM.modifyResults,
          CycleM.throw, CycleM.bind_apply, CycleM.pure_apply, initResults,
          default_run_e2e_tests, fix_implementation,
          consider_test_adjustment, completedResult, h1, h2, h3]
        | true =>
          refine ⟨completedResult true, ?_, rfl, rfl, rfl, rfl, rfl⟩
          simp [run_refinement_cycle, cycle_body, plan_next_refinement,
          adjust_e2e_test, implement_refinement, check_and_fix_tests,
          check_loop, handle_implementation_failure, review_and_update_spec,
          commit_changes, should_continue_decision, addNote, storeCall,
          gateCall, appendStep, appendError, CycleM.modifyResults,
          CycleM.throw, CycleM.bind_apply, CycleM.pure_apply, initResults,
          default_run_e2e_tests, fix_implementation,
          consider_test_adjustment, completedResult, h1, h2, h3]
      · cases h2 : pyIn "progress integration" (pyLower p.description) with
        | false =>
          refine ⟨completedResult false, ?_, rfl, rfl, rfl, rfl, rfl⟩
          simp [run_refinement_cycle, cycle_body, plan_next_refinement,
          adjust_e2e_test, implement_refinement, check_and_fix_tests,
          check_loop, handle_implementation_failure, review_and_update_spec,
          commit_changes, should_continue_decision, addNote, storeCall,
          gateCall, appendStep, appendError, CycleM.modifyResults,
          CycleM.throw, CycleM.bind_apply, CycleM.pure_apply, initResults,
          default_run_e2e_tests, fix_implementation,
          consider_test_adjustment, completedResult, h1, h2, h3]
        | true =>
          refine ⟨completedResult true, ?_, rfl, rfl, rfl, rfl, rfl⟩
          simp [run_refinement_cycle, cycle_body, plan_next_refinement,
          adjust_e2e_test, implement_refinement, check_and_fix_tests,
          check_loop, handle_implementation_failure, review_and_update_spec,
          commit_changes, should_continue_decision, addNote, storeCall,
          gateCall, appendStep, appendError, CycleM.modifyResults,
          CycleM.throw, CycleM.bind_apply, CycleM.pure_apply, initResults,
          default_run_e2e_tests, fix_implementation,
          consider_test_adjustment, completedResult, h1, h2, h3]


end Helix
